import Mathlib

/-
Verification of the natural-language specification of the socket control-plane
server (src/musicbot/socket_server.py) against a shallow Lean embedding of its
code.  Strings are Lean Strings (Python str, sequences of code points); bytes
are Nat lists; Python dicts are insertion-ordered association lists; one-second
or volume floats that the code renders with round(x, 2) are represented as an
exact count of hundredths.
-/

namespace Giesela

/-- A live client socket, identified by an integer handle. -/
abbrev Conn := Nat

/-- Python str.lower for the ASCII range (the only range these tables see). -/
def pyLower (s : String) : String := String.mk (s.data.map Char.toLower)

/-- Python str.upper for the ASCII range. -/
def pyUpper (s : String) : String := String.mk (s.data.map Char.toUpper)

/-- Little-endian decimal digits of n, computed with fuel so that it reduces
definitionally; decDigitsRev supplies fuel n + 1 which always suffices. -/
def decDigitsAux : Nat → Nat → List Nat
  | 0, _ => []
  | fuel + 1, n => if n = 0 then [] else n % 10 :: decDigitsAux fuel (n / 10)

/-- Little-endian decimal digits of n (empty for 0). -/
def decDigitsRev (n : Nat) : List Nat := decDigitsAux (n + 1) n

/-- Python str(n) for a nonnegative integer n: its decimal rendering. -/
def pyStrNat (n : Nat) : String :=
  if n = 0 then "0" else String.mk ((decDigitsRev n).reverse.map Nat.digitChar)

/-- Python str(round(x, 2)) for a float x that is an exact two-place decimal,
given as a count of hundredths: 50 renders as 0.5, 100 as 1.0, 75 as 0.75. -/
def pyFloatStr (hundredths : Nat) : String :=
  let whole := hundredths / 100
  let frac := hundredths % 100
  if frac = 0 then pyStrNat whole ++ ".0"
  else if frac % 10 = 0 then pyStrNat whole ++ "." ++ pyStrNat (frac / 10)
  else pyStrNat whole ++ "." ++ (if frac < 10 then "0" else "") ++ pyStrNat frac

/-- The wire framing used at every send site of socket_server.py, the format
expression that prefixes len(response) and two equals signs to the body.
len of a Python str counts code points, which is String.length here. -/
def pyFrame (s : String) : String := pyStrNat s.length ++ "==" ++ s

/-- UTF-8 encoding of one code point. -/
def utf8Char (c : Nat) : List Nat :=
  if c < 0x80 then [c]
  else if c < 0x800 then [0xC0 + c / 64, 0x80 + c % 64]
  else if c < 0x10000 then [0xE0 + c / 4096, 0x80 + c / 64 % 64, 0x80 + c % 64]
  else [0xF0 + c / 262144, 0x80 + c / 4096 % 64, 0x80 + c / 64 % 64, 0x80 + c % 64]

/-- UTF-8 encoding of a list of characters. -/
def utf8List : List Char → List Nat
  | [] => []
  | c :: cs => utf8Char c.toNat ++ utf8List cs

/-- Python s.encode("utf-8"): the byte sequence a frame puts on the wire. -/
def utf8Str (s : String) : List Nat := utf8List s.data

/-- Whether a byte is an ASCII decimal digit. -/
def isDigitByte (b : Nat) : Bool := 48 ≤ b && b ≤ 57

/-- Reads a run of leading decimal-digit bytes into an accumulator, returning
the value read so far and the unconsumed remainder. -/
def parseLenAux (acc : Nat) : List Nat → Nat × List Nat
  | [] => (acc, [])
  | b :: rest =>
    if isDigitByte b then parseLenAux (10 * acc + (b - 48)) rest else (acc, b :: rest)

/-- The receiver-side inverse the specification describes for the frame codec:
read the decimal length N, expect two equals-sign bytes, and take the following
N bytes as the payload of the (single, complete) frame. -/
def decodeBytes (bs : List Nat) : Option (List Nat) :=
  match bs with
  | [] => none
  | b :: _ =>
    if isDigitByte b then
      match parseLenAux 0 bs with
      | (n, 61 :: 61 :: payload) => if payload.length = n then some payload else none
      | _ => none
    else none

/-- Python msg.split on a semicolon, over the character list. -/
def splitSemiAux : List Char → List Char → List (List Char)
  | [], cur => [cur.reverse]
  | c :: rest, cur =>
    if c = ';' then cur.reverse :: splitSemiAux rest [] else splitSemiAux rest (c :: cur)

/-- Python msg.split with separator semicolon. -/
def pySplitSemi (s : String) : List String := (splitSemiAux s.data []).map String.mk

/-- Lookup in a Python dict, modelled as an insertion-ordered association list
with unique keys. -/
def dictGet {α β : Type} [BEq α] (k : α) (d : List (α × β)) : Option β :=
  (d.find? (fun p => p.1 == k)).map (fun p => p.2)

/-- Python dict item assignment: replace in place when the key exists,
otherwise append at the end. -/
def dictSet {α β : Type} [BEq α] (k : α) (v : β) (d : List (α × β)) : List (α × β) :=
  if d.any (fun p => p.1 == k) then d.map (fun p => if p.1 == k then (k, v) else p)
  else d ++ [(k, v)]

/-- Python dict.pop with a default: remove the entry with the given key. -/
def dictPop {α β : Type} [BEq α] (k : α) (d : List (α × β)) : List (α × β) :=
  d.filter (fun p => !(p.1 == k))

/-- The three shared registry tables of SocketServer: server_ids maps a
connection to its room id, sockets_by_user maps a user id to its most recent
connection, and awaiting_registeration maps a connection to its pending
(lowercased) registration token. -/
structure SState where
  server_ids : List (Conn × String)
  sockets_by_user : List (String × Conn)
  awaiting_registeration : List (Conn × String)
deriving DecidableEq

/-- Modelled from the spec: the metadata resolver (SpotifyTrack.from_query of
musicbot/spotify.py, which is not under src/) returns best-effort artist,
title and cover-art guesses with a confidence; certainty is in hundredths so
the source comparison with the float literal 0.4 is the exact test 40 < c. -/
structure SpotifyTrack where
  certainty : Nat
  artist : String
  song_name : String
  cover_url : String
  query : String

/-- Radio-station metadata carried by a streamed entry. -/
structure StationData where
  name : String
  cover : String

/-- The two playlist-entry shapes get_player_values distinguishes by type
name: a StreamPlaylistEntry (with optional radio_station_data) or a
URLPlaylistEntry with an integer duration in seconds. -/
inductive CurrentEntry
  | stream (radio_station_data : Option StationData) (title : String) (url : String)
  | url (title : String) (url : String) (duration : Nat)

/-- The playback-engine handle fields the server reads.  volume and progress
are floats in the source, rendered only through round(x, 2); they are carried
here as exact counts of hundredths. -/
structure Player where
  current_entry : Option CurrentEntry
  is_playing : Bool
  is_paused : Bool
  volume : Nat
  progress : Nat

/-- The eight values get_player_values returns, in source order. -/
structure PlayerValues where
  artist : String
  song_title : String
  video_id : String
  cover_url : String
  playing : String
  duration : String
  progress : String
  volume : String
deriving DecidableEq

/-- The placeholder cover URL of line 254. -/
def default_cover : String := "http://i.imgur.com/nszu54A.jpg"

/-- SocketServer.get_player_values (lines 250 to 299).  The metadata resolver
from_query and the video-id regex extraction video_id_of are external inputs:
the resolver lives outside src/ and the regex is a best-effort URL match whose
absence of a match yields a single space. -/
def get_player_values (from_query : String → SpotifyTrack)
    (video_id_of : String → Option String)
    (players : List (String × Player)) (server_id : String) : PlayerValues :=
  let artist := " "
  let song_title := "NOT CONNECTED TO A CHANNEL"
  let video_id := " "
  let cover_url := default_cover
  let playing := "UNCONNECTED"
  let duration := "0"
  let progress := "0"
  let volume := ".5"
  match dictGet server_id players with
  | none =>
    { artist := artist, song_title := song_title, video_id := video_id,
      cover_url := cover_url, playing := playing, duration := duration,
      progress := progress, volume := volume }
  | some player =>
    let volume := pyFloatStr player.volume
    match player.current_entry with
    | none =>
      { artist := artist, song_title := "NONE", video_id := video_id,
        cover_url := cover_url, playing := "STOPPED", duration := duration,
        progress := progress, volume := volume }
    | some (CurrentEntry.stream radio_station_data title url) =>
      let abc :=
        match radio_station_data with
        | some station_data => ("RADIO", pyUpper station_data.name, station_data.cover)
        | none => ("STREAM", pyUpper title, cover_url)
      let playing := if player.is_playing then "PLAYING" else "PAUSED"
      let progress := pyFloatStr player.progress
      let video_id := (video_id_of url).getD " "
      { artist := abc.1, song_title := abc.2.1, video_id := video_id,
        cover_url := abc.2.2, playing := playing, duration := duration,
        progress := progress, volume := volume }
    | some (CurrentEntry.url title url dur) =>
      let spotify_track := from_query title
      let abc :=
        if 40 < spotify_track.certainty then
          (spotify_track.artist, spotify_track.song_name, spotify_track.cover_url)
        else (artist, pyUpper spotify_track.query, cover_url)
      let playing := if player.is_playing then "PLAYING" else "PAUSED"
      let duration := pyStrNat dur
      let progress := pyFloatStr player.progress
      let video_id := (video_id_of url).getD " "
      { artist := abc.1, song_title := abc.2.1, video_id := video_id,
        cover_url := abc.2.2, playing := playing, duration := duration,
        progress := progress, volume := volume }

/-- The INFORMATION response body of lines 70, 75 and 164, 169: named format
fields in the order artist, song title, video id, play status, cover url,
progress, duration, volume. -/
def informationResponse (v : PlayerValues) : String :=
  "INFORMATION;" ++ v.artist ++ ";" ++ v.song_title ++ ";" ++ v.video_id ++ ";" ++
    v.playing ++ ";" ++ v.cover_url ++ ";" ++ v.progress ++ ";" ++ v.duration ++ ";" ++ v.volume

/-- The scan of lines 48 to 51: first pending entry whose stored token equals
the presented token after lowercasing both. -/
def findToken : List (Conn × String) → String → Option Conn
  | [], _ => none
  | (sock, tok) :: rest, token =>
    if pyLower tok = pyLower token then some sock else findToken rest token

/-- SocketServer.register_handler (lines 45 to 60).  send reports whether
sendall on the matched socket succeeds; when it fails the exception propagates
to the caller, carried here as the error value holding the state at the raise
point (the pending entry is already popped). -/
def register_handler (send : Conn → String → Bool) (st : SState)
    (token server_id author_id : String) : Except SState (Bool × SState) :=
  match findToken st.awaiting_registeration token with
  | none => Except.ok (false, st)
  | some sck =>
    let st1 := { st with awaiting_registeration := dictPop sck st.awaiting_registeration }
    let response := "USERINFORMATION;" ++ server_id ++ ";" ++ author_id
    if send sck (pyFrame response) then Except.ok (true, st1) else Except.error st1

/-- SocketServer.send_message (lines 98 to 108): returns success and the frame
delivered to the addressed socket, if any. -/
def send_message (send : Conn → String → Bool) (st : SState)
    (author_id message : String) : Bool × List (Conn × String) :=
  match dictGet author_id st.sockets_by_user with
  | none => (false, [])
  | some s =>
    let msg := "MESSAGE;" ++ message
    if send s (pyFrame msg) then (true, [(s, pyFrame msg)]) else (false, [])

/-- The environment a connection session reads: the engine registry
musicbot.players, the two external helpers of get_player_values, the float
parser used by VOLUMECHANGE (none models a ValueError), and the per-socket
send outcome of each sendall. -/
structure Env where
  players : List (String × Player)
  from_query : String → SpotifyTrack
  video_id_of : String → Option String
  pyfloat : String → Option Nat
  send : Conn → String → Bool

/-- Iteration of the for loop of _broadcast_information (lines 66 to 83) over
the server_ids items: on a send failure the bare raise re-raises the socket
error out of the loop (the append to to_delete below it is unreachable), so
the error value carries the frames delivered before the failure. -/
def broadcast_go (env : Env) (sent : List (Conn × String)) :
    List (Conn × String) → Except (List (Conn × String)) (List (Conn × String))
  | [] => Except.ok sent
  | (sock, server_id) :: rest =>
    let response := informationResponse
      (get_player_values env.from_query env.video_id_of env.players server_id)
    if env.send sock (pyFrame response) then
      broadcast_go env (sent ++ [(sock, pyFrame response)]) rest
    else Except.error sent

/-- SocketServer._broadcast_information (lines 66 to 87).  On the success path
to_delete is empty, so the pop loop of lines 85 to 87 removes nothing; on a
send failure the re-raised exception skips that loop entirely and the state is
returned unchanged either way. -/
def broadcast_information (env : Env) (st : SState) :
    Except (SState × List (Conn × String)) (SState × List (Conn × String)) :=
  match broadcast_go env [] st.server_ids with
  | Except.ok sent => Except.ok (st, sent)
  | Except.error sent => Except.error (st, sent)

/-- One received chunk of the read loop: a decoded message, or a socket error
raised by recv. -/
inductive RecvEvent
  | msg (s : String)
  | err

/-- Engine submissions and player calls issued by the COMMAND dispatch. -/
inductive EngineEffect
  | summon (server_id : String)
  | resume (server_id author_id : String)
  | pause (server_id author_id : String)
  | skip (server_id author_id : String)
  | volumechange (server_id author_id : String) (value : Nat)
  | submit_add_entry (url : String)
  | submit_import_from (url : String)
  | radio (name : String)
deriving DecidableEq

/-- Outcome of dispatching one parsed message: continue the loop with updated
state, or abort the whole thread on an exception no handler catches (an
IndexError on a missing leftover field, a ValueError from float, or a sendall
failure outside any try block). -/
inductive StepOut
  | cont (st : SState) (sent : List (Conn × String)) (effects : List EngineEffect)
  | abort (st : SState) (sent : List (Conn × String)) (effects : List EngineEffect)

/-- The dispatch of lines 163 to 227 on one well-formed (three-field) message,
after the registry upsert already happened. -/
def dispatch (env : Env) (c : Conn) (request server_id author_id : String)
    (leftover : List String) (st : SState) (sent : List (Conn × String))
    (effects : List EngineEffect) : StepOut :=
  if request == "REQUEST" &&
      (match leftover with | l0 :: _ => l0 == "SEND_INFORMATION" | [] => false) then
    let response := informationResponse
      (get_player_values env.from_query env.video_id_of env.players server_id)
    if env.send c (pyFrame response) then
      StepOut.cont st (sent ++ [(c, pyFrame response)]) effects
    else StepOut.abort st sent effects
  else if request == "REQUEST" && server_id == "USER_IDENTIFICATION" then
    StepOut.cont
      { st with awaiting_registeration := dictSet c (pyLower author_id) st.awaiting_registeration }
      sent effects
  else if request == "COMMAND" then
    match leftover with
    | [] => StepOut.abort st sent effects
    | l0 :: lrest =>
      let effects := if l0 == "SUMMON" then effects ++ [EngineEffect.summon server_id] else effects
      match dictGet server_id env.players with
      | none => StepOut.cont st sent effects
      | some player =>
        if l0 == "PLAY_PAUSE" then
          StepOut.cont st sent
            (if player.is_paused then effects ++ [EngineEffect.resume server_id author_id]
             else if player.is_playing then effects ++ [EngineEffect.pause server_id author_id]
             else effects)
        else if l0 == "SKIP" then
          StepOut.cont st sent (effects ++ [EngineEffect.skip server_id author_id])
        else if l0 == "VOLUMECHANGE" then
          match lrest with
          | [] => StepOut.abort st sent effects
          | v :: _ =>
            match env.pyfloat v with
            | none => StepOut.abort st sent effects
            | some x =>
              StepOut.cont st sent (effects ++ [EngineEffect.volumechange server_id author_id x])
        else if l0 == "PLAY" then
          match lrest with
          | [] => StepOut.abort st sent effects
          | url :: _ =>
            StepOut.cont st sent (effects ++ [EngineEffect.submit_add_entry url])
        else if l0 == "RADIO" then
          match lrest with
          | [] => StepOut.abort st sent effects
          | name :: _ => StepOut.cont st sent (effects ++ [EngineEffect.radio name])
        else StepOut.cont st sent effects
  else StepOut.cont st sent effects

/-- Result of the while loop of connection_maintainer: final registry state,
frames sent on this socket, engine effects, the last values bound to the
server_id and author_id locals (none if never assigned), and whether an
uncaught exception aborted the thread before the loop could break. -/
structure LoopOut where
  st : SState
  sent : List (Conn × String)
  effects : List EngineEffect
  serverIdLocal : Option String
  authorIdLocal : Option String
  aborted : Bool

/-- The read loop of SocketServer.connection_maintainer (lines 134 to 227).
An empty event list models stop_threads turning true, which exits the loop
normally.  A message of fewer than three semicolon fields raises IndexError
inside the try of line 150, caught at line 159: the loop breaks, keeping
whatever the two locals already held (parts one and two are assigned left to
right before the failing index). -/
def maintLoop (env : Env) (c : Conn) :
    List RecvEvent → SState → Option String → Option String →
    List (Conn × String) → List EngineEffect → LoopOut
  | [], st, sid?, aid?, sent, effects =>
    { st := st, sent := sent, effects := effects,
      serverIdLocal := sid?, authorIdLocal := aid?, aborted := false }
  | RecvEvent.err :: _, st, sid?, aid?, sent, effects =>
    { st := st, sent := sent, effects := effects,
      serverIdLocal := sid?, authorIdLocal := aid?, aborted := false }
  | RecvEvent.msg m :: rest, st, sid?, aid?, sent, effects =>
    if m == "exit" || m == "sdown" || m == "" then
      { st := st, sent := sent, effects := effects,
        serverIdLocal := sid?, authorIdLocal := aid?, aborted := false }
    else if m == "ping" then
      if env.send c "4==pong" then
        maintLoop env c rest st sid? aid? (sent ++ [(c, "4==pong")]) effects
      else
        { st := st, sent := sent, effects := effects,
          serverIdLocal := sid?, authorIdLocal := aid?, aborted := true }
    else
      match pySplitSemi m with
      | [] =>
        { st := st, sent := sent, effects := effects,
          serverIdLocal := sid?, authorIdLocal := aid?, aborted := false }
      | request :: partsTail =>
        match partsTail with
        | [] =>
          { st := st, sent := sent, effects := effects,
            serverIdLocal := sid?, authorIdLocal := aid?, aborted := false }
        | server_id :: partsTail2 =>
          match partsTail2 with
          | [] =>
            { st := st, sent := sent, effects := effects,
              serverIdLocal := some server_id, authorIdLocal := aid?, aborted := false }
          | author_id :: leftover =>
            let st1 :=
              if (["USER_IDENTIFICATION"] : List String).contains (pyLower server_id) then st
              else
                { st with server_ids := dictSet c server_id st.server_ids,
                          sockets_by_user := dictSet author_id c st.sockets_by_user }
            match dispatch env c request server_id author_id leftover st1 sent effects with
            | StepOut.cont st2 sent2 effects2 =>
              maintLoop env c rest st2 (some server_id) (some author_id) sent2 effects2
            | StepOut.abort st2 sent2 effects2 =>
              { st := st2, sent := sent2, effects := effects2,
                serverIdLocal := some server_id, authorIdLocal := some author_id,
                aborted := true }

/-- Full outcome of a connection session: final state, frames sent on this
socket, engine effects, whether shutdown and close ran on the socket, and
whether an uncaught exception escaped the thread. -/
structure MaintResult where
  st : SState
  sent : List (Conn × String)
  effects : List EngineEffect
  closed : Bool
  uncaught : Bool

/-- SocketServer.connection_maintainer (lines 132 to 248): the read loop, then
the teardown of lines 229 to 248.  Line 229 pops sockets_by_user under the key
author_id underscore server_id; when either local was never assigned, the
format call raises UnboundLocalError and the teardown (including the shutdown
and close of lines 247 and 248) never runs.  The connections bookkeeping list
of lines 233 to 244 is not part of the registry tables and is not modelled.
awaiting_registeration is not touched anywhere in the teardown. -/
def connection_maintainer (env : Env) (c : Conn) (events : List RecvEvent)
    (st : SState) : MaintResult :=
  let out := maintLoop env c events st none none [] []
  if out.aborted then
    { st := out.st, sent := out.sent, effects := out.effects, closed := false, uncaught := true }
  else
    match out.authorIdLocal, out.serverIdLocal with
    | some author_id, some server_id =>
      let st1 := { out.st with
        sockets_by_user := dictPop (author_id ++ "_" ++ server_id) out.st.sockets_by_user }
      let st2 := { st1 with server_ids := dictPop c st1.server_ids }
      { st := st2, sent := out.sent, effects := out.effects, closed := true, uncaught := false }
    | _, _ =>
      { st := out.st, sent := out.sent, effects := out.effects, closed := false, uncaught := true }

/-- What a coroutine submitted by the PLAY dispatch would eventually do on the
engine loop: succeed, raise WrongEntryTypeError, or raise something else. -/
inductive CoroOutcome
  | ok
  | wrongEntryType
  | otherError
deriving DecidableEq

/-- A concurrent Future as returned by asyncio.run_coroutine_threadsafe,
holding whatever the coroutine eventually produces; the PLAY dispatch never
reads it. -/
structure CoroFuture where
  outcome : CoroOutcome

/-- An exception type for a failed submission call itself. -/
inductive PyError
  | err

/-- Semantics of asyncio.run_coroutine_threadsafe as called on lines 212 and
216: it schedules the coroutine on the engine loop and returns a Future
immediately; an exception raised inside the coroutine, such as the
WrongEntryTypeError that add_entry raises on a wrong reference kind, is stored
in the returned Future and is never raised in the calling thread. -/
def run_coroutine_threadsafe (coroutineOutcome : CoroOutcome) : Except PyError CoroFuture :=
  Except.ok { outcome := coroutineOutcome }

/-- Observable outcome of the PLAY branch of lines 209 to 223. -/
structure PlayDispatch where
  add_entry_submitted : Bool
  import_from_submitted : Bool
  logged_failure : Bool
  connection_closed : Bool
deriving DecidableEq

/-- The PLAY branch of lines 209 to 223: try submitting add_entry through
run_coroutine_threadsafe, with an except clause for WrongEntryTypeError that
would retry import_from.  The submission call returns a Future at once, so the
except clause is never entered (were it entered, evaluating its handler would
itself raise NameError, because WrongEntryTypeError is not imported in
socket_server.py). -/
def play_command (addEntryOutcome : CoroOutcome) : PlayDispatch :=
  match run_coroutine_threadsafe addEntryOutcome with
  | Except.ok _f =>
    { add_entry_submitted := true, import_from_submitted := false,
      logged_failure := false, connection_closed := false }
  | Except.error _ =>
    { add_entry_submitted := true, import_from_submitted := false,
      logged_failure := false, connection_closed := false }

/-- A closed environment with no bound engines, trivial external helpers and
always-successful sends, used by concrete evaluations. -/
def env0 : Env :=
  { players := [],
    from_query := fun q =>
      { certainty := 0, artist := " ", song_name := " ", cover_url := " ", query := q },
    video_id_of := fun _ => none,
    pyfloat := fun _ => none,
    send := fun _ _ => true }

/-- The empty registry. -/
def st0 : SState :=
  { server_ids := [], sockets_by_user := [], awaiting_registeration := [] }

/-- Value of a little-endian decimal digit list. -/
def digitsVal : List Nat → Nat
  | [] => 0
  | d :: ds => d + 10 * digitsVal ds

/-- A player with no current entry and volume 0.7, bound to a room in
concrete evaluations. -/
def playerNoTrack : Player :=
  { current_entry := none, is_playing := false, is_paused := false, volume := 70, progress := 0 }

theorem utf8List_append (a b : List Char) : utf8List (a ++ b) = utf8List a ++ utf8List b := by
  induction a with
  | nil => simp [utf8List]
  | cons c cs ih => simp [utf8List, ih]

theorem utf8Str_append (a b : String) : utf8Str (a ++ b) = utf8Str a ++ utf8Str b := by
  cases a with
  | mk da =>
    cases b with
    | mk db =>
      show utf8List (da ++ db) = utf8List da ++ utf8List db
      exact utf8List_append da db

theorem utf8Char_ascii {n : Nat} (h : n < 128) : utf8Char n = [n] := by
  simp [utf8Char, h]

theorem utf8List_ascii {l : List Char} (h : ∀ c ∈ l, c.toNat < 128) :
    utf8List l = l.map Char.toNat := by
  induction l with
  | nil => rfl
  | cons c cs ih =>
    simp only [utf8List, List.map_cons]
    rw [utf8Char_ascii (h c (List.mem_cons_self c cs)),
      ih (fun x hx => h x (List.mem_cons_of_mem c hx))]
    rfl

theorem digitChar_toNat : ∀ d, d < 10 → (Nat.digitChar d).toNat = 48 + d := by decide

theorem decDigitsAux_spec : ∀ (fuel n : Nat), n ≤ fuel →
    digitsVal (decDigitsAux fuel n) = n ∧ ∀ d ∈ decDigitsAux fuel n, d < 10 := by
  intro fuel
  induction fuel with
  | zero =>
    intro n hn
    have : n = 0 := Nat.le_zero.mp hn
    subst this
    exact ⟨rfl, by simp [decDigitsAux]⟩
  | succ f ih =>
    intro n hn
    by_cases h : n = 0
    · subst h
      simp [decDigitsAux, digitsVal]
    · have hdiv : n / 10 ≤ f := by omega
      obtain ⟨hv, hd⟩ := ih (n / 10) hdiv
      constructor
      · simp only [decDigitsAux, if_neg h, digitsVal, hv]
        omega
      · intro d hdm
        simp only [decDigitsAux, if_neg h, List.mem_cons] at hdm
        rcases hdm with h1 | h2
        · omega
        · exact hd d h2

theorem parseLenAux_digits : ∀ (L : List Nat) (acc : Nat) (rest : List Nat),
    (∀ d ∈ L, d < 10) →
    parseLenAux acc (L.map (fun d => 48 + d) ++ 61 :: rest) =
      (L.foldl (fun a d => 10 * a + d) acc, 61 :: rest) := by
  intro L
  induction L with
  | nil =>
    intro acc rest _
    simp [parseLenAux, isDigitByte]
  | cons d ds ih =>
    intro acc rest h
    have hd : d < 10 := h d (List.mem_cons_self d ds)
    have hdig : isDigitByte (48 + d) = true := by
      simp [isDigitByte]; omega
    simp only [List.map_cons, List.cons_append, parseLenAux, hdig, if_pos]
    have h48 : 48 + d - 48 = d := by omega
    rw [h48]
    simp only [List.append_eq]
    rw [ih (10 * acc + d) rest (fun x hx => h x (List.mem_cons_of_mem d hx))]
    simp [List.foldl]

theorem foldl_msd (L : List Nat) :
    L.reverse.foldl (fun a d => 10 * a + d) 0 = digitsVal L := by
  induction L with
  | nil => rfl
  | cons d ds ih =>
    simp only [List.reverse_cons, List.foldl_append, ih, List.foldl, digitsVal]
    omega

theorem decodeBytes_cons (b : Nat) (tail : List Nat) :
    decodeBytes (b :: tail) =
      if isDigitByte b then
        match parseLenAux 0 (b :: tail) with
        | (n, 61 :: 61 :: payload) => if payload.length = n then some payload else none
        | _ => none
      else none := rfl

theorem decode_encode_ascii (s : String) (h : ∀ c ∈ s.data, c.toNat < 128) :
    decodeBytes (utf8Str (pyFrame s)) = some (utf8Str s) := by
  cases s with
  | mk data =>
    by_cases hn : data.length = 0
    · have : data = [] := List.length_eq_zero.mp hn
      subst this
      decide
    · have hlen : (String.mk data).length = data.length := rfl
      have hwire : utf8Str (pyFrame (String.mk data)) =
          utf8List (pyStrNat data.length).data ++ 61 :: 61 :: utf8List data := by
        show utf8Str (pyStrNat (String.mk data).length ++ "==" ++ String.mk data) = _
        rw [utf8Str_append, utf8Str_append]
        show utf8List (pyStrNat (String.mk data).length).data ++ utf8List ("==").data ++
          utf8List data = _
        rw [hlen]
        simp [List.append_assoc]
        rfl
      set D := decDigitsRev data.length with hD
      obtain ⟨hval, hdig⟩ := decDigitsAux_spec (data.length + 1) data.length (Nat.le_succ _)
      have hval' : digitsVal D = data.length := hval
      have hdig' : ∀ d ∈ D, d < 10 := hdig
      have hdata : (pyStrNat data.length).data = D.reverse.map Nat.digitChar := by
        simp [pyStrNat, hn, hD, decDigitsRev]
      have hutf : utf8List (pyStrNat data.length).data = D.reverse.map (fun d => 48 + d) := by
        rw [hdata, utf8List_ascii]
        · rw [List.map_map]
          apply List.map_congr_left
          intro d hdm
          have : d < 10 := hdig' d (List.mem_reverse.mp hdm)
          simp [Function.comp, digitChar_toNat d this]
        · intro c hc
          obtain ⟨d, hdm, rfl⟩ := List.mem_map.mp hc
          have : d < 10 := hdig' d (List.mem_reverse.mp hdm)
          rw [digitChar_toNat d this]
          omega
      have hDne : D ≠ [] := by
        rw [hD]
        show decDigitsAux (data.length + 1) data.length ≠ []
        simp [decDigitsAux, hn]
      cases hmap : D.reverse.map (fun d => 48 + d) with
      | nil =>
        exfalso
        have := List.map_eq_nil_iff.mp hmap
        exact hDne (by simpa using List.reverse_eq_nil_iff.mp this)
      | cons b tail' =>
        have hb : isDigitByte b = true := by
          have hbmem : b ∈ D.reverse.map (fun d => 48 + d) := by
            rw [hmap]
            exact List.mem_cons_self b tail'
          obtain ⟨d, hdm, rfl⟩ := List.mem_map.mp hbmem
          have : d < 10 := hdig' d (List.mem_reverse.mp hdm)
          simp [isDigitByte]; omega
        have hparse :
            parseLenAux 0 (D.reverse.map (fun d => 48 + d) ++ 61 :: (61 :: utf8List data)) =
              (data.length, 61 :: (61 :: utf8List data)) := by
          rw [parseLenAux_digits D.reverse 0 (61 :: utf8List data)
              (fun d hdm => hdig' d (List.mem_reverse.mp hdm))]
          rw [foldl_msd, hval']
        have hpay : (utf8List data).length = data.length := by
          rw [utf8List_ascii h, List.length_map]
        rw [hwire, hutf, hmap]
        rw [List.cons_append]
        rw [decodeBytes_cons, if_pos hb]
        rw [← List.cons_append, ← hmap, hparse]
        simp [hpay]
        rfl

theorem findToken_none : ∀ (l : List (Conn × String)) (token : String),
    (∀ p ∈ l, pyLower p.2 ≠ pyLower token) → findToken l token = none
  | [], _, _ => rfl
  | (sock, tok) :: rest, token, h => by
    simp only [findToken]
    rw [if_neg (h (sock, tok) (List.mem_cons_self _ _))]
    exact findToken_none rest token (fun q hq => h q (List.mem_cons_of_mem _ hq))

/-- C1: evaluation of the teardown at its failing inputs.  A connection that
binds room1 and user1 and then sends exit is shut down and closed, yet its
sockets_by_user entry survives teardown, because line 229 pops the key
user1_room1 while the entry is stored under user1; a connection that requested
registration keeps both its awaiting_registeration and sockets_by_user entries
after teardown, since the teardown never touches awaiting_registeration.  This
refutes the claim that all three tables are purged on every terminal path. -/
theorem teardown_leaves_registry_entries :
    (let r := connection_maintainer env0 0
        [RecvEvent.msg "REQUEST;room1;user1;SEND_INFORMATION", RecvEvent.msg "exit"] st0
     r.closed = true ∧ r.st.sockets_by_user = [("user1", 0)] ∧ r.st.server_ids = []) ∧
    (let r := connection_maintainer env0 0
        [RecvEvent.msg "REQUEST;USER_IDENTIFICATION;ABC123", RecvEvent.msg "exit"] st0
     r.closed = true ∧ r.st.awaiting_registeration = [(0, "abc123")] ∧
       r.st.sockets_by_user = [("ABC123", 0)]) :=
  ⟨⟨rfl, rfl, rfl⟩, ⟨rfl, rfl, rfl⟩⟩

/-- C2: evaluation of the read loop at the registration frame.  Because line
156 compares the lowercased room id with the uppercase literal
USER_IDENTIFICATION, the guard is always true, so even the registration
request REQUEST;USER_IDENTIFICATION;ABC123 upserts the connection into
server_ids and sockets_by_user in addition to recording the pending token.
This refutes the claim that the upsert happens exactly when the room id is not
the sentinel. -/
theorem registration_frame_still_upserts_tables :
    (maintLoop env0 0 [RecvEvent.msg "REQUEST;USER_IDENTIFICATION;ABC123"]
        st0 none none [] []).st =
      { server_ids := [(0, "USER_IDENTIFICATION")], sockets_by_user := [("ABC123", 0)],
        awaiting_registeration := [(0, "abc123")] } :=
  rfl

/-- C3: evaluation of _broadcast_information with two connections bound to
room1.  With all sends succeeding, both connections receive the same
INFORMATION frame.  When the send to connection 1 fails, the bare raise on
line 82 re-raises the error out of the loop before the unreachable append to
to_delete: the call reports the exception, connection 2 receives nothing, and
connection 1 is not removed from server_ids.  This refutes the claim that a
send failure removes only the failing connection and the others still receive
their frame. -/
theorem broadcast_failure_propagates :
    (let st : SState :=
      { server_ids := [(1, "room1"), (2, "room1")], sockets_by_user := [],
        awaiting_registeration := [] }
     let fr := pyFrame (informationResponse
       (get_player_values env0.from_query env0.video_id_of env0.players "room1"))
     broadcast_information env0 st = Except.ok (st, [(1, fr), (2, fr)])) ∧
    (let st : SState :=
      { server_ids := [(1, "room1"), (2, "room1")], sockets_by_user := [],
        awaiting_registeration := [] }
     broadcast_information { env0 with send := fun s _ => s != 1 } st =
       Except.error (st, [])) :=
  ⟨rfl, rfl⟩

/-- C4 counterexample: the frame prefix is the code-point count, not the UTF-8
byte length.  The one-character payload covering the letter e-acute occupies
two UTF-8 bytes, yet the frame carries prefix 1, and the byte-level decoder
that takes N bytes fails to invert the encoder on it. -/
theorem frame_prefix_not_utf8_byte_length :
    pyFrame "é" = "1==é" ∧ (utf8Str "é").length = 2 ∧
      pyFrame "é" ≠ pyStrNat (utf8Str "é").length ++ "==" ++ "é" ∧
      decodeBytes (utf8Str (pyFrame "é")) ≠ some (utf8Str "é") := by
  refine ⟨rfl, rfl, ?_, ?_⟩ <;> decide

/-- C4 (amended): encode produces the prefix N, two equals signs and the
payload where N is the number of code points of the payload, and for payloads
whose characters are all ASCII (so that N also equals the UTF-8 byte length)
the receiver-side decoder that reads N and takes the following N bytes
inverts the encoder. -/
theorem frame_prefix_codepoints_ascii_roundtrip (s : String)
    (h : ∀ c ∈ s.data, c.toNat < 128) :
    pyFrame s = pyStrNat s.data.length ++ "==" ++ s ∧
      decodeBytes (utf8Str (pyFrame s)) = some (utf8Str s) :=
  ⟨rfl, decode_encode_ascii s h⟩

/-- C4 witness: the round trip at the concrete ASCII payload ping. -/
theorem frame_ascii_roundtrip_witness :
    pyFrame "ping" = pyStrNat ("ping".data.length) ++ "==" ++ "ping" ∧
      decodeBytes (utf8Str (pyFrame "ping")) = some (utf8Str "ping") :=
  frame_prefix_codepoints_ascii_roundtrip "ping" (by decide)

/-- C5: register_handler resolves a token against the pending table with a
case-insensitive scan in which the first match wins.  When no pending entry
matches (case-insensitively), it reports failure and leaves the whole state
unchanged.  When an entry matches, the send succeeds and no other entry
matches the same token, the call succeeds and removes exactly that entry, and
a second resolution of the same token then reports failure, leaving the state
unchanged: resolution is at most once. -/
theorem register_handler_resolution (send : Conn → String → Bool) (st : SState)
    (token server_id author_id : String) :
    ((∀ p ∈ st.awaiting_registeration, pyLower p.2 ≠ pyLower token) →
      register_handler send st token server_id author_id = Except.ok (false, st)) ∧
    (∀ c, findToken st.awaiting_registeration token = some c →
      send c (pyFrame ("USERINFORMATION;" ++ server_id ++ ";" ++ author_id)) = true →
      (∀ p ∈ dictPop c st.awaiting_registeration, pyLower p.2 ≠ pyLower token) →
      register_handler send st token server_id author_id =
        Except.ok (true, { st with awaiting_registeration := dictPop c st.awaiting_registeration }) ∧
      register_handler send
          { st with awaiting_registeration := dictPop c st.awaiting_registeration }
          token server_id author_id =
        Except.ok (false,
          { st with awaiting_registeration := dictPop c st.awaiting_registeration })) := by
  constructor
  · intro hnone
    simp [register_handler, findToken_none _ _ hnone]
  · intro c hfind hsend hrest
    constructor
    · simp [register_handler, hfind, hsend]
    · have hnone : findToken (dictPop c st.awaiting_registeration) token = none :=
        findToken_none _ _ hrest
      simp [register_handler, hnone]

/-- C5 witness: a token registered as ABC123 is stored lowercased; resolving
it succeeds exactly once and a second resolution reports failure. -/
theorem register_handler_resolution_witness :
    register_handler (fun _ _ => true)
        { server_ids := [], sockets_by_user := [], awaiting_registeration := [(7, "abc123")] }
        "ABC123" "srv1" "auth1" = Except.ok (true, ⟨[], [], []⟩) ∧
      register_handler (fun _ _ => true) ⟨[], [], []⟩ "ABC123" "srv1" "auth1" =
        Except.ok (false, ⟨[], [], []⟩) := by
  have h := (register_handler_resolution (fun _ _ => true)
    { server_ids := [], sockets_by_user := [], awaiting_registeration := [(7, "abc123")] }
    "ABC123" "srv1" "auth1").2 7 rfl rfl (by decide)
  exact ⟨h.1, h.2⟩

/-- C6: evaluation of a malformed frame (fewer than three semicolon fields).
When it is the first frame of the connection, the read loop breaks without any
error reply, but the teardown then raises UnboundLocalError at line 229
because author_id was never assigned, so the socket is never shut down or
closed.  When a well-formed frame preceded it, the loop breaks and the socket
is closed, still with no error reply.  The first run refutes the part of the
claim that says the connection is closed. -/
theorem malformed_first_frame_skips_close :
    (let r := connection_maintainer env0 0 [RecvEvent.msg "REQUEST;room1"] st0
     r.sent = [] ∧ r.closed = false ∧ r.uncaught = true) ∧
    (let r := connection_maintainer env0 0
        [RecvEvent.msg "V;room1;user1", RecvEvent.msg "q"] st0
     r.sent = [] ∧ r.closed = true) :=
  ⟨⟨rfl, rfl, rfl⟩, ⟨rfl, rfl⟩⟩

/-- C7: the PLAY dispatch submits the track reference to add_entry through
run_coroutine_threadsafe, which returns a Future immediately; a rejection of
the reference as the wrong entry type is raised inside the coroutine on the
engine loop and stored in the discarded Future, so the except clause never
fires and import_from is never submitted (the connection does stay open).
The session run shows that PLAY records exactly one add_entry submission and
no import submission. -/
theorem play_rejection_no_retry :
    play_command CoroOutcome.wrongEntryType =
      { add_entry_submitted := true, import_from_submitted := false,
        logged_failure := false, connection_closed := false } ∧
    (let o := maintLoop { env0 with players := [("room1", playerNoTrack)] } 0
        [RecvEvent.msg "COMMAND;room1;user1;PLAY;urlX"] st0 none none [] []
     o.effects = [EngineEffect.submit_add_entry "urlX"] ∧ o.aborted = false) :=
  ⟨rfl, ⟨rfl, rfl⟩⟩

/-- C8 counterexample: a room whose bound player has no current track yields
title NONE and status STOPPED, but its volume field is the string rendering of
the actual player volume (here 0.7), not the default .5 the claim states. -/
theorem no_track_snapshot_volume_not_default :
    (get_player_values env0.from_query env0.video_id_of
      [("room1", playerNoTrack)] "room1").song_title = "NONE" ∧
    (get_player_values env0.from_query env0.video_id_of
      [("room1", playerNoTrack)] "room1").playing = "STOPPED" ∧
    (get_player_values env0.from_query env0.video_id_of
      [("room1", playerNoTrack)] "room1").volume = "0.7" ∧
    ("0.7" : String) ≠ ".5" := by
  refine ⟨rfl, rfl, rfl, ?_⟩
  decide

/-- C8 (amended): for a room with no bound engine the snapshot is exactly the
defaults, including volume .5; for a room whose bound player has no current
track it is title NONE, status STOPPED and the same defaults for the other
fields except volume, which is the rounded rendering of the actual player
volume. -/
theorem snapshot_defaults_amended (fq : String → SpotifyTrack)
    (vid : String → Option String) (players : List (String × Player)) (room : String) :
    (dictGet room players = none →
      get_player_values fq vid players room =
        { artist := " ", song_title := "NOT CONNECTED TO A CHANNEL", video_id := " ",
          cover_url := default_cover, playing := "UNCONNECTED", duration := "0",
          progress := "0", volume := ".5" }) ∧
    (∀ p, dictGet room players = some p → p.current_entry = none →
      get_player_values fq vid players room =
        { artist := " ", song_title := "NONE", video_id := " ",
          cover_url := default_cover, playing := "STOPPED", duration := "0",
          progress := "0", volume := pyFloatStr p.volume }) := by
  constructor
  · intro h
    simp [get_player_values, h]
  · intro p h1 h2
    simp [get_player_values, h1, h2]

/-- C8 witness: the amended snapshot at a concrete unbound room and at a
concrete bound player with no current track and volume 0.7. -/
theorem snapshot_defaults_witness :
    get_player_values env0.from_query env0.video_id_of [] "r" =
      { artist := " ", song_title := "NOT CONNECTED TO A CHANNEL", video_id := " ",
        cover_url := default_cover, playing := "UNCONNECTED", duration := "0",
        progress := "0", volume := ".5" } ∧
    get_player_values env0.from_query env0.video_id_of [("room1", playerNoTrack)] "room1" =
      { artist := " ", song_title := "NONE", video_id := " ",
        cover_url := default_cover, playing := "STOPPED", duration := "0",
        progress := "0", volume := "0.7" } :=
  ⟨(snapshot_defaults_amended env0.from_query env0.video_id_of [] "r").1 rfl,
   (snapshot_defaults_amended env0.from_query env0.video_id_of
     [("room1", playerNoTrack)] "room1").2 playerNoTrack rfl rfl⟩

/-- C9: when a pending token matches, register_handler pops the pending entry
first and only then sends the USERINFORMATION frame; if that send fails, the
exception propagates to the caller with the entry already removed, so the
registration is consumed without the client being notified. -/
theorem register_handler_pops_before_send (send : Conn → String → Bool) (st : SState)
    (token server_id author_id : String) (c : Conn)
    (hfind : findToken st.awaiting_registeration token = some c)
    (hsend : send c (pyFrame ("USERINFORMATION;" ++ server_id ++ ";" ++ author_id)) = false) :
    register_handler send st token server_id author_id =
      Except.error { st with awaiting_registeration := dictPop c st.awaiting_registeration } := by
  simp [register_handler, hfind, hsend]

/-- C9 witness: a failing send at the concrete pending table with entry
abc123 yields the error outcome with the pending entry already removed. -/
theorem register_handler_pops_before_send_witness :
    register_handler (fun _ _ => false) ⟨[], [], [(7, "abc123")]⟩ "ABC123" "srv1" "auth1" =
      Except.error ⟨[], [], []⟩ :=
  register_handler_pops_before_send (fun _ _ => false) ⟨[], [], [(7, "abc123")]⟩
    "ABC123" "srv1" "auth1" 7 rfl rfl

/-- C10: the receive path interprets each decoded chunk verbatim with no
length-prefix stripping, while every server-to-client message is
length-prefixed.  A bare ping body gets the pong reply (itself the frame of
the body pong); a framed ping gets no pong; a framed three-field message is
parsed with the prefix glued onto the verb field and still upserts the
registry verbatim; and send_message always emits the frame of its MESSAGE
body. -/
theorem inbound_unframed_outbound_framed :
    pyFrame "pong" = "4==pong" ∧
    (maintLoop env0 0 [RecvEvent.msg "ping"] st0 none none [] []).sent = [(0, "4==pong")] ∧
    (maintLoop env0 0 [RecvEvent.msg (pyFrame "ping")] st0 none none [] []).sent = [] ∧
    (let o := maintLoop env0 0 [RecvEvent.msg (pyFrame "X;room1;user1")] st0 none none [] []
     o.st.server_ids = [(0, "room1")] ∧ o.st.sockets_by_user = [("user1", 0)]) ∧
    (∀ message : String,
      send_message (fun _ _ => true)
        { server_ids := [], sockets_by_user := [("u", 5)], awaiting_registeration := [] }
        "u" message = (true, [(5, pyFrame ("MESSAGE;" ++ message))])) :=
  ⟨rfl, rfl, rfl, ⟨rfl, rfl⟩, fun _ => rfl⟩

end Giesela
